import Mathlib

/-!
Verification of the SADEWA drug-interaction analysis engine (frontend client).

This file gives a shallow embedding of the interaction-analysis code of the
repository and proves or refutes the specified properties about it.

Embedded source functions:
* `apiService.analyzeInteractionsEnhanced` and `generateEnhancedSummary`
  (src/sadewa-frontend/src/services/api.js),
* `getOverallRiskLevel` (src/sadewa-frontend/src/components/InteractionResults.jsx),
* `drugService.generateMockInteractions` and the error branch of
  `drugService.checkDrugInteractions` (drugService.js),
* `handleAnalyze` of the two Dashboard.jsx variants.

JavaScript string primitives (`toLowerCase`, `includes`, `||` on strings) are
modelled over `String.data`; JavaScript numbers that the code compares
(confidence values 0.95, 0.8, 0.7) are modelled as rationals.
-/

/-- Model of JavaScript `String.prototype.toLowerCase` (ASCII case folding,
which is all the repository uses). -/
def jsToLower (s : String) : String := ⟨s.data.map Char.toLower⟩

/-- Predicate `leadsWith sub l` is true when the char list `l` starts with `sub`. -/
def leadsWith : List Char → List Char → Bool
  | [], _ => true
  | _ :: _, [] => false
  | c :: cs, d :: ds => c == d && leadsWith cs ds

/-- Predicate `occursIn sub l` is true when `sub` occurs contiguously inside `l`. -/
def occursIn (sub : List Char) : List Char → Bool
  | [] => leadsWith sub []
  | d :: ds => leadsWith sub (d :: ds) || occursIn sub ds

/-- Model of JavaScript `s.includes(sub)`: substring containment. -/
def jsIncludes (s sub : String) : Bool := occursIn sub.data s.data

/-- Model of JavaScript `v || dflt` for a possibly-absent string:
`undefined`/`null` and the empty string are falsy. -/
def jsOrString (v : Option String) (dflt : String) : String :=
  match v with
  | some s => if s == "" then dflt else s
  | none => dflt

/-- The JavaScript number literal 0.95 (database-entry confidence) as a rational. -/
def num095 : ℚ := ⟨19, 20, by decide, by decide⟩

/-- The JavaScript number literal 0.8 (default AI confidence) as a rational. -/
def num08 : ℚ := ⟨4, 5, by decide, by decide⟩

/-- The JavaScript number literal 0.7 (confidence of the AI-failure fallback
object) as a rational. -/
def num07 : ℚ := ⟨7, 10, by decide, by decide⟩

theorem num095_eq : num095 = 95 / 100 := by
  rw [num095, Rat.mk'_eq_divInt, Rat.divInt_eq_div]; norm_num

theorem num08_eq : num08 = 8 / 10 := by
  rw [num08, Rat.mk'_eq_divInt, Rat.divInt_eq_div]; norm_num

theorem num07_eq : num07 = 7 / 10 := by
  rw [num07, Rat.mk'_eq_divInt, Rat.divInt_eq_div]; norm_num

/-- A database interaction record as returned by
`/api/drugs/check-interactions` and consumed by the merge step
(fields read at api.js lines 284-291). -/
structure DbInteraction where
  drug_a : String
  drug_b : String
  severity : String
  description : String
  recommendation : String
deriving DecidableEq, Repr

/-- An AI interaction object inside the `analyzeInteractions` response
(fields read at api.js lines 293-309: `medications`, plus the fields kept
by the object spread). -/
structure AiInteraction where
  medications : List String
  severity : String
  description : String
  recommendation : String
deriving DecidableEq, Repr

/-- The AI analysis object (`aiAnalysis` in `analyzeInteractionsEnhanced`):
either the parsed response of `analyzeInteractions` or the hard-coded
fallback object built when that call throws (api.js lines 265-279). -/
structure AiAnalysis where
  interactions : List AiInteraction
  summary : String
  confidence_score : ℚ
  processing_time : ℚ
  llm_reasoning : String

/-- One element of the `mergedInteractions` array (api.js lines 282-310). -/
structure MergedInteraction where
  severity : String
  medications : List String
  description : String
  recommendation : String
  source : String
  confidence : ℚ
deriving DecidableEq, Repr

/-- The mapping applied to each database interaction
(api.js lines 284-291): fixed source `"database"` and fixed confidence 0.95. -/
def dbToMerged (d : DbInteraction) : MergedInteraction :=
  { severity := d.severity
    medications := [d.drug_a, d.drug_b]
    description := d.description
    recommendation := d.recommendation
    source := "database"
    confidence := num095 }

/-- JavaScript `aiAnalysis.confidence_score || 0.8` (api.js line 308). -/
def aiConfidence (c : ℚ) : ℚ := if c = 0 then num08 else c

/-- The mapping applied to each surviving AI interaction
(api.js lines 305-309): object spread plus source `"ai"` and the AI
confidence score. -/
def aiToMerged (conf : ℚ) (a : AiInteraction) : MergedInteraction :=
  { severity := a.severity
    medications := a.medications
    description := a.description
    recommendation := a.recommendation
    source := "ai"
    confidence := conf }

/-- The filter predicate of api.js lines 294-304: an AI interaction is
considered covered by the database when some database interaction has a
`drug_a` or `drug_b` that contains (case-insensitively, as a substring)
a medication name of the AI interaction. -/
def aiCoveredByDb (db : List DbInteraction) (a : AiInteraction) : Bool :=
  db.any fun d =>
    a.medications.any fun med =>
      jsIncludes (jsToLower d.drug_a) (jsToLower med)
        || jsIncludes (jsToLower d.drug_b) (jsToLower med)

/-- Step 3 of `analyzeInteractionsEnhanced` (api.js lines 282-310):
database interactions first, then the AI interactions not covered by the
database. -/
def mergeInteractions (db : List DbInteraction) (ai : AiAnalysis) : List MergedInteraction :=
  db.map dbToMerged
    ++ (ai.interactions.filter fun a => !aiCoveredByDb db a).map
        (aiToMerged (aiConfidence ai.confidence_score))

/-- The severity/source counts text of `generateEnhancedSummary`
(api.js lines 341-365). -/
def summaryCore (interactions : List MergedInteraction) : String :=
  let majorCount := (interactions.filter fun i => i.severity == "Major").length
  let moderateCount := (interactions.filter fun i => i.severity == "Moderate").length
  let minorCount := (interactions.filter fun i => i.severity == "Minor").length
  let dbCount := (interactions.filter fun i => i.source == "database").length
  let aiCount := (interactions.filter fun i => i.source == "ai").length
  (if majorCount > 0 then toString majorCount ++ " MAJOR interaction(s) detected. " else "")
    ++ (if moderateCount > 0 then toString moderateCount ++ " moderate interaction(s) found. " else "")
    ++ (if minorCount > 0 then toString minorCount ++ " minor interaction(s) noted. " else "")
    ++ ("Analysis based on " ++ toString dbCount ++ " database record(s) and "
        ++ toString aiCount ++ " AI prediction(s).")

/-- Function `generateEnhancedSummary` (api.js lines 336-372). The AI summary is
appended only when it is truthy (non-empty). -/
def generateEnhancedSummary (interactions : List MergedInteraction) (aiSummary : String) : String :=
  if interactions.length == 0 then
    "No significant drug interactions detected in both database and AI analysis."
  else if aiSummary == "" then summaryCore interactions
  else summaryCore interactions ++ (" AI Analysis: " ++ aiSummary)

/-- The hard-coded `aiAnalysis` object installed when the `analyzeInteractions`
call throws (api.js lines 270-279). -/
def failureAiAnalysis : AiAnalysis :=
  { interactions := []
    summary := "AI analysis unavailable, using database interactions only."
    confidence_score := num07
    processing_time := 1
    llm_reasoning := "Database-only analysis performed due to AI service unavailability." }

/-- The `enhancedAnalysis` result object (api.js lines 313-324). -/
structure EnhancedAnalysis where
  interactions : List MergedInteraction
  summary : String
  confidence_score : ℚ
  processing_time : ℚ
  llm_reasoning : String
  analysis_type : String
  database_interactions : Nat
  ai_interactions : Nat
  total_interactions : Nat

/-- Function `apiService.analyzeInteractionsEnhanced` (api.js lines 243-333) as a
function of the two call outcomes: `dbResult = none` models a failed
database interaction check (the catch at lines 258-262 keeps
`dbInteractions = []`), and `aiResult = none` models a failed AI call
(the catch at lines 269-279 installs `failureAiAnalysis`).
The returned object spreads `aiAnalysis` and then overrides
`interactions`, `analysis_type`, the counts and `summary`. -/
def analyzeInteractionsEnhanced (dbResult : Option (List DbInteraction))
    (aiResult : Option AiAnalysis) : EnhancedAnalysis :=
  let dbInteractions := dbResult.getD []
  let aiAnalysis := aiResult.getD failureAiAnalysis
  let merged := mergeInteractions dbInteractions aiAnalysis
  { interactions := merged
    summary := generateEnhancedSummary merged aiAnalysis.summary
    confidence_score := aiAnalysis.confidence_score
    processing_time := aiAnalysis.processing_time
    llm_reasoning := aiAnalysis.llm_reasoning
    analysis_type := "hybrid"
    database_interactions := dbInteractions.length
    ai_interactions := aiAnalysis.interactions.length
    total_interactions := merged.length }

/-- Function `getOverallRiskLevel` (InteractionResults.jsx lines 99-107), as a function
of `analysis?.warnings`; `none` models an absent warnings array. Note the
uppercase severity comparisons in the source. -/
def getOverallRiskLevel (analysisWarnings : Option (List MergedInteraction)) : String :=
  match analysisWarnings with
  | none => "safe"
  | some warnings =>
    if warnings.any fun w => w.severity == "MAJOR" then "major"
    else if warnings.any fun w => w.severity == "MODERATE" then "moderate"
    else if warnings.any fun w => w.severity == "MINOR" then "minor"
    else "safe"

/-- One entry of the `interactionPatterns` table inside
`generateMockInteractions` (drugService.js). -/
structure InteractionPattern where
  drugs : List String
  severity : String
  description : String
  recommendation : String
deriving DecidableEq, Repr

/-- The static `interactionPatterns` table of `generateMockInteractions`. -/
def interactionPatterns : List InteractionPattern :=
  [ { drugs := ["warfarin", "ibuprofen"]
      severity := "Major"
      description := "Increased bleeding risk with concurrent use"
      recommendation := "Avoid concurrent use. Consider paracetamol as alternative." }
  , { drugs := ["warfarin", "aspirin"]
      severity := "Major"
      description := "Significantly increased bleeding risk"
      recommendation := "Avoid concurrent use unless closely monitored." }
  , { drugs := ["clopidogrel", "omeprazole"]
      severity := "Moderate"
      description := "Omeprazole may reduce effectiveness of Clopidogrel"
      recommendation := "Consider alternative PPI or H2 blocker." }
  , { drugs := ["metformin", "contrast"]
      severity := "Major"
      description := "Risk of lactic acidosis with iodinated contrast"
      recommendation := "Discontinue metformin before contrast procedures." }
  , { drugs := ["digoxin", "furosemide"]
      severity := "Moderate"
      description := "Increased digoxin levels due to electrolyte changes"
      recommendation := "Monitor digoxin levels and electrolytes closely." }
  , { drugs := ["simvastatin", "amlodipine"]
      severity := "Moderate"
      description := "Increased statin levels, risk of myopathy"
      recommendation := "Limit simvastatin dose to 20mg daily." } ]

/-- An interaction object produced by `generateMockInteractions`. -/
structure MockInteraction where
  drug_a : String
  drug_b : String
  severity : String
  description : String
  recommendation : String
  source : String
deriving DecidableEq, Repr

/-- The per-pattern-drug name resolution of `generateMockInteractions`:
`drugNames.find(inputDrug => inputDrug.toLowerCase().includes(patternDrug)) || patternDrug`. -/
def matchPatternDrug (drugNames : List String) (patternDrug : String) : String :=
  match drugNames.find? fun inputDrug => jsIncludes (jsToLower inputDrug) patternDrug with
  | some s => if s == "" then patternDrug else s
  | none => patternDrug

/-- The `hasAllDrugs` test of `generateMockInteractions`: every pattern drug
occurs (as a substring) in some lowercased input name. -/
def patternFires (lowered : List String) (p : InteractionPattern) : Bool :=
  p.drugs.all fun drug => lowered.any fun inputDrug => jsIncludes inputDrug drug

/-- The exact-pattern loop of `generateMockInteractions` (the `for` loop over
`interactionPatterns`, pushing one interaction per firing pattern in table
order). -/
def exactInteractions (drugNames : List String) : List MockInteraction :=
  interactionPatterns.filterMap fun p =>
    if patternFires (drugNames.map jsToLower) p then
      let matched := p.drugs.map (matchPatternDrug drugNames)
      some { drug_a := matched.getD 0 ""
             drug_b := matched.getD 1 ""
             severity := p.severity
             description := p.description
             recommendation := p.recommendation
             source := "pattern_matching" }
    else none

/-- The NSAID category keywords of `generateMockInteractions`. -/
def nsaidList : List String := ["ibuprofen", "diclofenac", "naproxen", "celecoxib"]

/-- The anticoagulant category keywords of `generateMockInteractions`. -/
def anticoagulantList : List String := ["warfarin", "heparin", "rivaroxaban", "apixaban"]

/-- Flag `hasNSAID` of `generateMockInteractions`. -/
def hasNSAID (drugNames : List String) : Bool :=
  (drugNames.map jsToLower).any fun drug => nsaidList.any fun nsaid => jsIncludes drug nsaid

/-- Flag `hasAnticoagulant` of `generateMockInteractions`. -/
def hasAnticoagulant (drugNames : List String) : Bool :=
  (drugNames.map jsToLower).any fun drug =>
    anticoagulantList.any fun anticoag => jsIncludes drug anticoag

/-- The generic category-level warning pushed by `generateMockInteractions`
when the NSAID/anticoagulant test fires and no exact pattern matched. -/
def categoryNSAIDWarning : MockInteraction :=
  { drug_a := "NSAID"
    drug_b := "Anticoagulant"
    severity := "Major"
    description := "Increased bleeding risk with concurrent use"
    recommendation := "Avoid concurrent use. Consider paracetamol as alternative."
    source := "category_matching" }

/-- Function `drugService.generateMockInteractions` (drugService.js): the exact-pattern
interactions, plus the category warning only when `!interactions.length`. -/
def generateMockInteractions (drugNames : List String) : List MockInteraction :=
  if hasNSAID drugNames && hasAnticoagulant drugNames
      && (exactInteractions drugNames).length == 0 then
    exactInteractions drugNames ++ [categoryNSAIDWarning]
  else exactInteractions drugNames

/-- The `data` object returned by `drugService.checkDrugInteractions`
(first drugService.js variant). It carries no degraded-mode marker. -/
structure CheckInteractionsData where
  input_drugs : List String
  interactions_found : Nat
  interactions : List DbInteraction
deriving DecidableEq, Repr

/-- The `{ success, data }` object returned by
`drugService.checkDrugInteractions` (first drugService.js variant). -/
structure CheckInteractionsOutcome where
  success : Bool
  data : CheckInteractionsData
deriving DecidableEq, Repr

/-- The fabricated Warfarin/NSAID interaction of the
`checkDrugInteractions` fallback (first drugService.js variant). -/
def warfarinNSAIDMock : DbInteraction :=
  { drug_a := "Warfarin"
    drug_b := "NSAID"
    severity := "Major"
    description := "Increased bleeding risk with concurrent use"
    recommendation := "Avoid concurrent use. Consider paracetamol as alternative." }

/-- The catch branch of `drugService.checkDrugInteractions` (first
drugService.js variant): when the backend call fails, fall back to simple
pattern matching and return `success: true` with the fabricated data. -/
def checkDrugInteractionsFallback (drugNames : List String) : CheckInteractionsOutcome :=
  let hasWarfarin := drugNames.any fun drug => jsIncludes (jsToLower drug) "warfarin"
  let nsaidHit := drugNames.any fun drug =>
    jsIncludes (jsToLower drug) "ibuprofen"
      || jsIncludes (jsToLower drug) "diclofenac"
      || jsIncludes (jsToLower drug) "naproxen"
  let mockInteractions := if hasWarfarin && nsaidHit then [warfarinNSAIDMock] else []
  { success := true
    data := { input_drugs := drugNames
              interactions_found := mockInteractions.length
              interactions := mockInteractions } }

/-- A selected patient record, as read by the Dashboard `handleAnalyze`
handlers (optional fields model possibly-absent JS properties). -/
structure PatientRec where
  patient_code : Option String
  no_rm : Option String
  name : Option String
  id : Option String
deriving DecidableEq, Repr

/-- A selected diagnosis, as read by the Dashboard `handleAnalyze` handlers. -/
structure DiagnosisRec where
  code : String
  name_id : Option String
deriving DecidableEq, Repr

/-- A medication entry of the Dashboard medication list. -/
structure MedicationRec where
  name : String
  dosage : String
deriving DecidableEq, Repr

/-- Outcome of the `handleAnalyze` handler of the first Dashboard.jsx variant:
either an early return (with the error message surfaced via `setError`, if
any), or the analysis request it posts. -/
inductive AnalyzeOutcome where
  | rejected (errorMessage : Option String)
  | requestSent (patient_id : String) (new_medications : List String)
      (diagnoses : List String) (notes : String)
deriving DecidableEq, Repr

/-- Handler `handleAnalyze` of the first Dashboard.jsx variant (src/unnamed/part_001
lines 121 onward): empty medication list sets a validation error and returns
before the `analyzeInteractions` network call; otherwise the payload is built
and the request issued. -/
def handleAnalyzeDashboard (selectedPatient : Option PatientRec)
    (selectedDiagnosis : Option DiagnosisRec)
    (medications : List MedicationRec) : AnalyzeOutcome :=
  if medications.length == 0 then
    .rejected (some "Please add at least one medication")
  else
    .requestSent
      (jsOrString (selectedPatient.bind fun p => p.patient_code)
        (jsOrString (selectedPatient.bind fun p => p.no_rm) "unknown"))
      (medications.map fun med => med.name ++ " " ++ med.dosage)
      (match selectedDiagnosis with
        | some d => [d.code]
        | none => [])
      ("Analysis for " ++ jsOrString (selectedPatient.bind fun p => p.name) "Unknown Patient"
        ++ " - " ++ jsOrString (selectedDiagnosis.bind fun d => d.name_id) "No diagnosis")

/-- Outcome of the `handleAnalyze` handler of the second Dashboard.jsx variant
(src/unnamed/part_002): its payload posts the raw medication objects and a
notes string, and its empty-list branch is a bare `return`. -/
inductive AnalyzeOutcomeUpdated where
  | rejected (errorMessage : Option String)
  | requestSent (patient_id : String) (new_medications : List MedicationRec) (notes : String)
deriving DecidableEq, Repr

/-- Handler `handleAnalyze` of the second Dashboard.jsx variant (src/unnamed/part_002
lines 63-80): `if (medications.length === 0) return;` surfaces no error. -/
def handleAnalyzeDashboardUpdated (selectedPatient : Option PatientRec)
    (selectedDiagnosis : Option DiagnosisRec)
    (medications : List MedicationRec) : AnalyzeOutcomeUpdated :=
  if medications.length == 0 then
    .rejected none
  else
    .requestSent
      (jsOrString (selectedPatient.bind fun p => p.id) "unknown")
      medications
      (jsOrString (selectedDiagnosis.bind fun d => d.name_id) "")

/-- Severity rank as the spec defines it (Major=2, Moderate=1, Minor=0).
This definition follows the wording of the spec; it is used only to state the
ordering property the spec claims of the merged list. -/
def severityRank (s : String) : Nat :=
  if s == "Major" then 2 else if s == "Moderate" then 1 else 0

/-- The ordering invariant of the spec, stated of a merged list: severity rank
is non-increasing along the list. This definition follows the wording of the
spec. -/
def sortedBySeverityDescending (l : List MergedInteraction) : Prop :=
  l.Pairwise fun a b => severityRank b.severity ≤ severityRank a.severity

theorem occursIn_append (sub l₁ l₂ : List Char) (h : occursIn sub l₂ = true) :
    occursIn sub (l₁ ++ l₂) = true := by
  induction l₁ with
  | nil => simpa using h
  | cons c cs ih => simp [occursIn, ih]

theorem jsIncludes_append_right (s t sub : String) (h : jsIncludes t sub = true) :
    jsIncludes (s ++ t) sub = true := by
  unfold jsIncludes at *
  have hd : (s ++ t).data = s.data ++ t.data := String.data_append s t
  rw [hd]
  exact occursIn_append _ _ _ h

theorem mapConstValue {α β : Type} (b : β) (f : α → β) (h : ∀ a, f a = b) :
    ∀ l : List α, l.map f = List.replicate l.length b := by
  intro l
  induction l with
  | nil => rfl
  | cons x xs ih => simp [List.replicate_succ, h, ih]

theorem permAnyEq {α : Type} {l₁ l₂ : List α} (h : l₁.Perm l₂) (p : α → Bool) :
    l₁.any p = l₂.any p := by
  rw [Bool.eq_iff_iff, List.any_eq_true, List.any_eq_true]
  constructor
  · rintro ⟨x, hx, hp⟩
    exact ⟨x, h.mem_iff.mp hx, hp⟩
  · rintro ⟨x, hx, hp⟩
    exact ⟨x, h.mem_iff.mpr hx, hp⟩

theorem patternFires_perm {l₁ l₂ : List String} (h : l₁.Perm l₂) (p : InteractionPattern) :
    patternFires (l₁.map jsToLower) p = patternFires (l₂.map jsToLower) p := by
  unfold patternFires
  have hfun : (fun drug => (l₁.map jsToLower).any fun inputDrug => jsIncludes inputDrug drug)
      = fun drug => (l₂.map jsToLower).any fun inputDrug => jsIncludes inputDrug drug :=
    funext fun drug => permAnyEq (h.map jsToLower) _
  rw [hfun]

/-- The fields of a `MockInteraction` that do not depend on which input name
matched a pattern keyword. -/
def mockKey (m : MockInteraction) : String × String × String × String :=
  (m.severity, m.description, m.recommendation, m.source)

theorem exactInteractions_map_mockKey (drugNames : List String) :
    (exactInteractions drugNames).map mockKey
      = interactionPatterns.filterMap fun p =>
          if patternFires (drugNames.map jsToLower) p then
            some (p.severity, p.description, p.recommendation, "pattern_matching")
          else none := by
  unfold exactInteractions
  rw [List.map_filterMap]
  congr 1
  funext p
  by_cases hc : patternFires (drugNames.map jsToLower) p
  · simp [hc, mockKey]
  · simp [hc]

theorem exactInteractions_mockKey_perm {l₁ l₂ : List String} (h : l₁.Perm l₂) :
    (exactInteractions l₁).map mockKey = (exactInteractions l₂).map mockKey := by
  rw [exactInteractions_map_mockKey, exactInteractions_map_mockKey]
  congr 1
  funext p
  rw [patternFires_perm h]

theorem hasNSAID_perm {l₁ l₂ : List String} (h : l₁.Perm l₂) :
    hasNSAID l₁ = hasNSAID l₂ := permAnyEq (h.map jsToLower) _

theorem hasAnticoagulant_perm {l₁ l₂ : List String} (h : l₁.Perm l₂) :
    hasAnticoagulant l₁ = hasAnticoagulant l₂ := permAnyEq (h.map jsToLower) _

/-- Database record used as concrete fixture: the Major warfarin/ibuprofen
interaction the backend (and the mock table) report. -/
def warfarinIbuprofenDb : DbInteraction :=
  { drug_a := "Warfarin"
    drug_b := "Ibuprofen"
    severity := "Major"
    description := "Increased bleeding risk with concurrent use"
    recommendation := "Avoid concurrent use. Consider paracetamol as alternative." }

/-- AI interaction fixture whose medication set differs from
`warfarinIbuprofenDb` but overlaps it in one drug. -/
def paracetamolIbuprofenAi : AiInteraction :=
  { medications := ["Paracetamol", "Ibuprofen"]
    severity := "Moderate"
    description := "Possible additive effects"
    recommendation := "Monitor." }

/-- AI analysis fixture wrapping `paracetamolIbuprofenAi`. -/
def aiAnalysisOverlap : AiAnalysis :=
  { interactions := [paracetamolIbuprofenAi]
    summary := "One moderate interaction found."
    confidence_score := ⟨9, 10, by decide, by decide⟩
    processing_time := 2
    llm_reasoning := "Reasoning text." }

/-- Database record fixture with Minor severity. -/
def digoxinFurosemideMinorDb : DbInteraction :=
  { drug_a := "Digoxin"
    drug_b := "Furosemide"
    severity := "Minor"
    description := "Increased digoxin levels due to electrolyte changes"
    recommendation := "Monitor digoxin levels and electrolytes closely." }

/-- AI interaction fixture with Major severity and no overlap with
`digoxinFurosemideMinorDb`. -/
def amiodaroneMajorAi : AiInteraction :=
  { medications := ["Amiodarone"]
    severity := "Major"
    description := "Serious arrhythmia risk"
    recommendation := "Avoid concurrent use." }

/-- AI analysis fixture wrapping `amiodaroneMajorAi`. -/
def aiAnalysisMajor : AiAnalysis :=
  { interactions := [amiodaroneMajorAi]
    summary := "One major interaction found."
    confidence_score := ⟨9, 10, by decide, by decide⟩
    processing_time := 2
    llm_reasoning := "Reasoning text." }

instance (l : List MergedInteraction) : Decidable (sortedBySeverityDescending l) :=
  inferInstanceAs (Decidable (List.Pairwise _ l))

/-- C1 (counterexample): the claim says an AI warning is dropped by the merge
only when its `drugsInvolved` set equals the set of some database warning. Here the
AI warning involves Paracetamol and Ibuprofen, the database warning involves
Warfarin and Ibuprofen — the sets differ (Paracetamol is in one and not the
other) — yet the merged result contains only the database entry: the AI
warning was dropped by the substring-overlap filter. -/
theorem C1_dedup_counterexample :
    ("Paracetamol" ∈ paracetamolIbuprofenAi.medications
        ∧ "Paracetamol" ∉ [warfarinIbuprofenDb.drug_a, warfarinIbuprofenDb.drug_b])
      ∧ (analyzeInteractionsEnhanced (some [warfarinIbuprofenDb])
            (some aiAnalysisOverlap)).interactions
          = [dbToMerged warfarinIbuprofenDb] := by
  decide

/-- C1 (amended): in the merge of `analyzeInteractionsEnhanced`, every
database warning is kept unchanged with source `"database"` and the fixed
confidence 0.95 (not `min(1, c + 0.05)`), and an AI warning survives exactly
when no `drug_a` or `drug_b` of a database entry contains one of its medication
names as a case-insensitive substring — a strictly weaker criterion than
set equality of the drug sets. -/
theorem C1_dedup_amended (db : List DbInteraction) (ai : AiAnalysis) :
    ((analyzeInteractionsEnhanced (some db) (some ai)).interactions.filter
        fun m => m.source == "database") = db.map dbToMerged
      ∧ ((analyzeInteractionsEnhanced (some db) (some ai)).interactions.filter
          fun m => m.source == "ai")
          = (ai.interactions.filter fun a => !aiCoveredByDb db a).map
              (aiToMerged (aiConfidence ai.confidence_score))
      ∧ ∀ m ∈ (analyzeInteractionsEnhanced (some db) (some ai)).interactions,
          m.source = "database" → m.confidence = num095 := by
  have hint : (analyzeInteractionsEnhanced (some db) (some ai)).interactions
      = db.map dbToMerged
        ++ (ai.interactions.filter fun a => !aiCoveredByDb db a).map
            (aiToMerged (aiConfidence ai.confidence_score)) := rfl
  refine ⟨?_, ?_, ?_⟩
  · rw [hint, List.filter_append]
    have h1 : (db.map dbToMerged).filter (fun m => m.source == "database")
        = db.map dbToMerged := by
      rw [List.filter_eq_self]
      intro m hm
      rcases List.mem_map.mp hm with ⟨d, _, rfl⟩
      rfl
    have h2 : (((ai.interactions.filter fun a => !aiCoveredByDb db a).map
        (aiToMerged (aiConfidence ai.confidence_score))).filter
          fun m => m.source == "database") = [] := by
      rw [List.filter_eq_nil_iff]
      intro m hm
      rcases List.mem_map.mp hm with ⟨a, _, rfl⟩
      simp [aiToMerged]
    rw [h1, h2, List.append_nil]
  · rw [hint, List.filter_append]
    have h1 : (db.map dbToMerged).filter (fun m => m.source == "ai") = [] := by
      rw [List.filter_eq_nil_iff]
      intro m hm
      rcases List.mem_map.mp hm with ⟨d, _, rfl⟩
      simp [dbToMerged]
    have h2 : (((ai.interactions.filter fun a => !aiCoveredByDb db a).map
        (aiToMerged (aiConfidence ai.confidence_score))).filter
          fun m => m.source == "ai")
        = (ai.interactions.filter fun a => !aiCoveredByDb db a).map
            (aiToMerged (aiConfidence ai.confidence_score)) := by
      rw [List.filter_eq_self]
      intro m hm
      rcases List.mem_map.mp hm with ⟨a, _, rfl⟩
      rfl
    rw [h1, h2, List.nil_append]
  · rw [hint]
    intro m hm
    rcases List.mem_append.mp hm with hm | hm
    · rcases List.mem_map.mp hm with ⟨d, _, rfl⟩
      intro _
      rfl
    · rcases List.mem_map.mp hm with ⟨a, _, rfl⟩
      intro hs
      exact absurd hs (by simp [aiToMerged])

/-- C2 (counterexample): the merged list is not sorted by severity rank
descending: with a Minor database interaction and a surviving Major AI
interaction, the result is `[Minor, Major]`, so a Minor warning precedes a
Major one. -/
theorem C2_ordering_counterexample :
    ((analyzeInteractionsEnhanced (some [digoxinFurosemideMinorDb])
          (some aiAnalysisMajor)).interactions.map fun m => m.severity)
        = ["Minor", "Major"]
      ∧ ¬ sortedBySeverityDescending
          (analyzeInteractionsEnhanced (some [digoxinFurosemideMinorDb])
            (some aiAnalysisMajor)).interactions := by
  decide

/-- C2 (amended): `analyzeInteractionsEnhanced` performs no severity sort at
all: the final list is exactly the database entries (in input order, all with
source `"database"`) followed by the surviving AI entries (in input order,
all with source `"ai"`). Database entries therefore do precede AI entries,
but a Minor database warning may precede a Major AI warning. -/
theorem C2_ordering_amended (db : List DbInteraction) (ai : AiAnalysis) :
    (analyzeInteractionsEnhanced (some db) (some ai)).interactions.map (fun m => m.source)
      = List.replicate db.length "database"
        ++ List.replicate
            ((ai.interactions.filter fun a => !aiCoveredByDb db a).length) "ai" := by
  have hint : (analyzeInteractionsEnhanced (some db) (some ai)).interactions
      = db.map dbToMerged
        ++ (ai.interactions.filter fun a => !aiCoveredByDb db a).map
            (aiToMerged (aiConfidence ai.confidence_score)) := rfl
  rw [hint, List.map_append, List.map_map, List.map_map]
  congr 1
  · exact mapConstValue "database" _ (fun d => rfl) db
  · exact mapConstValue "ai" _ (fun a => rfl) (ai.interactions.filter fun a => !aiCoveredByDb db a)

/-- C3 (counterexample): when the AI call fails and the database reports no
interactions, the summary of the result is the generic no-interactions message,
which does not state that the external analysis was unavailable (it even
speaks of "both database and AI analysis"). -/
theorem C3_degradation_counterexample :
    (analyzeInteractionsEnhanced (some []) none).interactions = []
      ∧ (analyzeInteractionsEnhanced (some []) none).summary
          = "No significant drug interactions detected in both database and AI analysis."
      ∧ jsIncludes (analyzeInteractionsEnhanced (some []) none).summary "unavailable"
          = false := by
  decide

/-- C3 (amended): when the AI call fails, `analyzeInteractionsEnhanced` still
returns a result whose interactions are exactly the database interactions
(the analysis does not fail outright), and whenever that list is non-empty
the summary contains the text "AI analysis unavailable". When the list is
empty the summary is the generic no-interactions message instead (see the
counterexample). -/
theorem C3_degradation_amended (db : List DbInteraction) :
    (analyzeInteractionsEnhanced (some db) none).interactions = db.map dbToMerged
      ∧ (db ≠ [] →
          jsIncludes (analyzeInteractionsEnhanced (some db) none).summary
              "AI analysis unavailable" = true) := by
  have hmerge : mergeInteractions db failureAiAnalysis = db.map dbToMerged := by
    simp [mergeInteractions, failureAiAnalysis]
  constructor
  · show mergeInteractions db failureAiAnalysis = db.map dbToMerged
    exact hmerge
  · intro hdb
    show jsIncludes
        (generateEnhancedSummary (mergeInteractions db failureAiAnalysis)
          failureAiAnalysis.summary) "AI analysis unavailable" = true
    rw [hmerge]
    have hlen : ((db.map dbToMerged).length == 0) = false := by
      rw [beq_eq_false_iff_ne, List.length_map]
      exact fun hc => hdb (List.length_eq_zero.mp hc)
    have hsum : (failureAiAnalysis.summary == "") = false := by decide
    unfold generateEnhancedSummary
    rw [hlen, hsum]
    simp only [Bool.false_eq_true, if_false]
    exact jsIncludes_append_right _ _ _ (by decide)

/-- C3 (witness): the amended statement at the concrete one-entry database. -/
theorem C3_degradation_witness :
    (analyzeInteractionsEnhanced (some [warfarinIbuprofenDb]) none).interactions
        = [warfarinIbuprofenDb].map dbToMerged
      ∧ jsIncludes (analyzeInteractionsEnhanced (some [warfarinIbuprofenDb]) none).summary
          "AI analysis unavailable" = true := by
  have h := C3_degradation_amended [warfarinIbuprofenDb]
  exact ⟨h.1, h.2 (by decide)⟩

/-- C4 (code bug): for the warnings exactly as the engine produces them —
here one warning with severity `"Major"` from the database — the
`getOverallRiskLevel` of InteractionResults.jsx returns `"safe"`, because it
compares severities against the uppercase strings `"MAJOR"`/`"MODERATE"`/
`"MINOR"` while the engine (and the sibling helpers in the same file, which
compare after `toLowerCase()`) use `"Major"`/`"Moderate"`/`"Minor"`. -/
theorem C4_overall_risk_bug :
    (∃ w ∈ (analyzeInteractionsEnhanced (some [warfarinIbuprofenDb]) none).interactions,
        w.severity = "Major")
      ∧ getOverallRiskLevel
          (some (analyzeInteractionsEnhanced (some [warfarinIbuprofenDb]) none).interactions)
          = "safe" := by
  decide

/-- C5 (counterexample): the `confidence_score` of the result is neither 1.0
for an empty merged list nor the mean confidence of the warnings: with the AI call
failed it is 0.7 in both cases, while an empty list should give 1.0 and a
singleton database list has mean 0.95. -/
theorem C5_confidence_counterexample :
    ((analyzeInteractionsEnhanced (some []) none).interactions = []
        ∧ (analyzeInteractionsEnhanced (some []) none).confidence_score ≠ 1)
      ∧ ((analyzeInteractionsEnhanced (some [warfarinIbuprofenDb]) none).interactions
            = [dbToMerged warfarinIbuprofenDb]
          ∧ (analyzeInteractionsEnhanced (some [warfarinIbuprofenDb]) none).confidence_score
              ≠ (dbToMerged warfarinIbuprofenDb).confidence) := by
  decide

/-- C5 (amended): `confidence_score` of the merged result is copied unchanged
from the AI analysis object — the `confidence_score` the AI reported, or the
fixed fallback 0.7 when the AI call failed — independently of the merged
warnings list. -/
theorem C5_confidence_amended (db : List DbInteraction) (ai : AiAnalysis) :
    (analyzeInteractionsEnhanced (some db) (some ai)).confidence_score = ai.confidence_score
      ∧ (analyzeInteractionsEnhanced (some db) none).confidence_score = num07 :=
  ⟨rfl, rfl⟩

/-- C6 (code bug): when the backend interaction lookup fails, the
`checkDrugInteractions` fallback of drugService.js returns `success: true`
with a locally fabricated Major interaction and no degraded-mode marker of
any kind in the returned object, instead of propagating an explicit failure. -/
theorem C6_fallback_bug :
    checkDrugInteractionsFallback ["Warfarin", "Ibuprofen"]
      = { success := true
          data := { input_drugs := ["Warfarin", "Ibuprofen"]
                    interactions_found := 1
                    interactions := [warfarinNSAIDMock] } } := by
  decide

/-- C7 (counterexample): `generateMockInteractions` is not a pure function of
the input considered as a set: the two lists below contain the same drug
names (one is a permutation of the other), yet the outputs differ — the
reported `drug_a` of the warfarin/ibuprofen rule is the first input name
containing "warfarin", which depends on input order. -/
theorem C7_determinism_counterexample :
    (["warfarin x", "warfarin y", "ibuprofen"] : List String).Perm
        ["warfarin y", "warfarin x", "ibuprofen"]
      ∧ generateMockInteractions ["warfarin x", "warfarin y", "ibuprofen"]
          ≠ generateMockInteractions ["warfarin y", "warfarin x", "ibuprofen"] := by
  constructor
  · exact List.Perm.swap "warfarin y" "warfarin x" ["ibuprofen"]
  · decide

/-- C7 (amended): `generateMockInteractions` is deterministic, and for inputs
containing the same drug names (permutations of each other) it fires the same
rules, in the same order, with the same severity, description, recommendation
and source fields; only the reported `drug_a`/`drug_b` names may differ, when
several input names match the same pattern keyword. -/
theorem C7_determinism_amended {l₁ l₂ : List String} (h : l₁.Perm l₂) :
    (generateMockInteractions l₁).map mockKey
      = (generateMockInteractions l₂).map mockKey := by
  have hkey := exactInteractions_mockKey_perm h
  have hlen : (exactInteractions l₁).length = (exactInteractions l₂).length := by
    have hc := congrArg List.length hkey
    simpa using hc
  unfold generateMockInteractions
  rw [hasNSAID_perm h, hasAnticoagulant_perm h, hlen, apply_ite (List.map mockKey),
    apply_ite (List.map mockKey), List.map_append, List.map_append, hkey]

/-- C7 (witness): the amended statement at the two concrete permuted lists of
the counterexample. -/
theorem C7_determinism_witness :
    (generateMockInteractions ["warfarin x", "warfarin y", "ibuprofen"]).map mockKey
      = (generateMockInteractions ["warfarin y", "warfarin x", "ibuprofen"]).map mockKey :=
  C7_determinism_amended (List.Perm.swap "warfarin y" "warfarin x" ["ibuprofen"])

/-- C8: in `generateMockInteractions`, the generic NSAID/anticoagulant
category warning is pushed only under `!interactions.length`, so whenever at
least one exact-drug pattern fired the output is exactly the exact-pattern
interactions and every entry has source `"pattern_matching"` — the category
warning is absent. -/
theorem C8_category_rule (drugNames : List String)
    (h : exactInteractions drugNames ≠ []) :
    generateMockInteractions drugNames = exactInteractions drugNames
      ∧ ∀ m ∈ generateMockInteractions drugNames, m.source = "pattern_matching" := by
  have hlen : ((exactInteractions drugNames).length == 0) = false := by
    rw [beq_eq_false_iff_ne]
    exact fun hc => h (List.length_eq_zero.mp hc)
  have hg : generateMockInteractions drugNames = exactInteractions drugNames := by
    unfold generateMockInteractions
    rw [hlen]
    simp
  refine ⟨hg, ?_⟩
  intro m hm
  rw [hg] at hm
  rcases List.mem_filterMap.mp hm with ⟨p, _, hp⟩
  by_cases hc : patternFires (drugNames.map jsToLower) p
  · rw [if_pos hc] at hp
    injection hp with hp
    rw [← hp]
  · rw [if_neg hc] at hp
    cases hp

/-- C8 (witness): the input `["warfarin", "ibuprofen"]` fires the exact
warfarin/ibuprofen rule (and the NSAID/anticoagulant category test), and the
category warning is absent from the output. -/
theorem C8_category_rule_witness :
    exactInteractions ["warfarin", "ibuprofen"] ≠ []
      ∧ generateMockInteractions ["warfarin", "ibuprofen"]
          = exactInteractions ["warfarin", "ibuprofen"]
      ∧ ∀ m ∈ generateMockInteractions ["warfarin", "ibuprofen"],
          m.source = "pattern_matching" := by
  have h : exactInteractions ["warfarin", "ibuprofen"] ≠ [] := by decide
  exact ⟨h, (C8_category_rule _ h).1, (C8_category_rule _ h).2⟩

/-- C9 (counterexample): the `handleAnalyze` of the second Dashboard.jsx
variant returns early on an empty medication list with a bare `return`,
surfacing no validation error at all. -/
theorem C9_validation_counterexample :
    handleAnalyzeDashboardUpdated none none [] = AnalyzeOutcomeUpdated.rejected none := by
  rfl

/-- C9 (amended): both Dashboard `handleAnalyze` handlers return before any
lookup or network call when the medication list is empty, so no
interaction-analysis request is sent and no result is produced; the first
variant surfaces the validation error "Please add at least one medication"
(and rejects with it exactly when the list is empty), while the second
variant returns silently without an error. -/
theorem C9_validation_amended (selectedPatient : Option PatientRec)
    (selectedDiagnosis : Option DiagnosisRec) :
    (∀ medications : List MedicationRec,
        handleAnalyzeDashboard selectedPatient selectedDiagnosis medications
            = AnalyzeOutcome.rejected (some "Please add at least one medication")
          ↔ medications = [])
      ∧ handleAnalyzeDashboardUpdated selectedPatient selectedDiagnosis []
          = AnalyzeOutcomeUpdated.rejected none := by
  constructor
  · intro medications
    cases medications with
    | nil => simp [handleAnalyzeDashboard]
    | cons m t => simp [handleAnalyzeDashboard]
  · rfl
